import Mathlib

/-!
# Verification of the playwriter CDP relay core

A shallow embedding of the relay's centralized state store
(`src/playwriter/src/relay-state.ts`) and of the pure decision logic of the
relay server (`src/playwriter/src/diff-utils.ts`,
`startPlayWriterCDPRelayServer`): the restricted-target filter, extension
resolution, the `Target.attachedToTarget` event translator, the CDP command
emulator branches, the HTTP `/json` discovery handlers and the `/cdp`
acceptance gates.

JavaScript `Map`s are modelled as insertion-ordered association lists
(`Map.set` updates in place or appends; `Map.delete` removes the entry;
iteration is in insertion order), JavaScript `Set`s as duplicate-free lists
in insertion order, and `string | undefined` values as `Option String`
(with the JS truthiness convention that the empty string is falsy, made
explicit at each use site).
-/

set_option autoImplicit false

namespace Playwriter

/-! ## Association-list model of JavaScript `Map` -/

/-- `Map.get`: value at the first (in a well-formed map, only) entry with
this key. -/
def mget {α β : Type} [DecidableEq α] : List (α × β) → α → Option β
  | [], _ => none
  | (a, b) :: t, key => if a = key then some b else mget t key

/-- `Map.set`: update the entry in place (keeping its position) when the key
exists, else append at the end. -/
def mset {α β : Type} [DecidableEq α] : List (α × β) → α → β → List (α × β)
  | [], key, val => [(key, val)]
  | (a, b) :: t, key, val =>
    if a = key then (key, val) :: t else (a, b) :: mset t key val

/-- `Map.delete`: drop the entry with this key. -/
def mdel {α β : Type} [DecidableEq α] : List (α × β) → α → List (α × β)
  | [], _ => []
  | (a, b) :: t, key => if a = key then mdel t key else (a, b) :: mdel t key

/-- `Map.has`. -/
def mhas {α β : Type} [DecidableEq α] (l : List (α × β)) (key : α) : Bool :=
  (mget l key).isSome

/-- JS truthiness of a `string | undefined` value: `undefined` and the empty
string are both falsy. -/
def truthy (v : Option String) : Option String :=
  if v = some "" then none else v

/-! ## Data model (`relay-state.ts`) -/

/-- The fields of CDP `Target.TargetInfo` the relay reads.  `url` is `""`
when empty or absent (the code treats both identically through `!url`);
`parentFrameId` is optional. -/
structure TargetInfo where
  targetId : String
  type : String
  title : String
  url : String
  attached : Bool
  parentFrameId : Option String
deriving Repr, DecidableEq

structure ConnectedTarget where
  sessionId : String
  targetId : String
  targetInfo : TargetInfo
  /-- JS `Set<string>` in insertion order. -/
  frameIds : List String
deriving Repr, DecidableEq

structure ExtensionInfo where
  browser : Option String
  email : Option String
  id : Option String
  version : Option String
deriving Repr, DecidableEq

/-- One aggregated extension object: domain state + runtime I/O.  The
`WSContext | null` handle is modelled by liveness alone (`ws : Bool`), and
a pending request's resolve/reject closure pair by its presence
(`Unit`). `pingInterval` is a timer handle or null. -/
structure ExtensionEntry where
  id : String
  info : ExtensionInfo
  stableKey : String
  connectedTargets : List (String × ConnectedTarget)
  ws : Bool
  pendingRequests : List (Nat × Unit)
  messageId : Nat
  pingInterval : Option Unit
deriving Repr, DecidableEq

structure PlaywrightClient where
  id : String
  extensionId : Option String
  /-- I/O handle (always present on a live client). -/
  ws : Bool
deriving Repr, DecidableEq

structure RelayState where
  extensions : List (String × ExtensionEntry)
  playwrightClients : List (String × PlaywrightClient)
deriving Repr, DecidableEq

/-! ## Pure state transition functions (`relay-state.ts`) -/

/-- `addExtension`: add a new extension connection (does not remove an
existing one with the same `stableKey`). -/
def addExtension (state : RelayState) (id : String) (info : ExtensionInfo)
    (stableKey : String) (ws : Bool) : RelayState :=
  { state with
    extensions := (mset state.extensions id
      { id := id, info := info, stableKey := stableKey, connectedTargets := [],
        ws := ws, pendingRequests := [], messageId := 0, pingInterval := none }) }

/-- `removeExtension`: remove an extension, its targets, and any playwright
clients bound to it. -/
def removeExtension (state : RelayState) (extensionId : String) : RelayState :=
  if mhas state.extensions extensionId = false then state
  else
    let newExtensions := mdel state.extensions extensionId
    let clientsToRemove :=
      (state.playwrightClients.map (·.2)).filter
        (fun client => client.extensionId = some extensionId)
    if clientsToRemove.length = 0 then { state with extensions := newExtensions }
    else
      { state with
        extensions := newExtensions,
        playwrightClients := (clientsToRemove.foldl
          (fun m client => mdel m client.id) state.playwrightClients) }

/-- `addPlaywrightClient`. -/
def addPlaywrightClient (state : RelayState) (id : String)
    (extensionId : Option String) (ws : Bool) : RelayState :=
  { state with
    playwrightClients := (mset state.playwrightClients id
      { id := id, extensionId := extensionId, ws := ws }) }

/-- `removePlaywrightClient`. -/
def removePlaywrightClient (state : RelayState) (clientId : String) : RelayState :=
  if mhas state.playwrightClients clientId = false then state
  else { state with playwrightClients := mdel state.playwrightClients clientId }

/-- `rebindClientsToExtension`: rebind all clients from one extension id to
another; the prior state when `from = to` or nothing was updated. -/
def rebindClientsToExtension (state : RelayState) (fromExtensionId toExtensionId : String) :
    RelayState :=
  if fromExtensionId = toExtensionId then state
  else
    let newClients := state.playwrightClients.map (fun kv =>
      if kv.2.extensionId = some fromExtensionId then
        (kv.1, { kv.2 with extensionId := some toExtensionId })
      else kv)
    let updated := state.playwrightClients.any
      (fun kv => kv.2.extensionId = some fromExtensionId)
    if updated = false then state
    else { state with playwrightClients := newClients }

/-- The transition updateExtensionIO : update an extension entry's I/O
fields; a `none` argument means the field was not provided. -/
def updateExtensionIO (state : RelayState) (extensionId : String)
    (ws : Option Bool) (pingInterval : Option (Option Unit)) : RelayState :=
  match mget state.extensions extensionId with
  | none => state
  | some ext =>
    { state with
      extensions := (mset state.extensions extensionId
        { ext with ws := ws.getD ext.ws,
                   pingInterval := pingInterval.getD ext.pingInterval }) }

/-- `addExtensionPendingRequest`: add or replace one pending request
callback pair. -/
def addExtensionPendingRequest (state : RelayState) (extensionId : String)
    (requestId : Nat) : RelayState :=
  match mget state.extensions extensionId with
  | none => state
  | some ext =>
    { state with
      extensions := (mset state.extensions extensionId
        { ext with pendingRequests := mset ext.pendingRequests requestId () }) }

/-- `removeExtensionPendingRequest`: remove one pending request callback
pair. -/
def removeExtensionPendingRequest (state : RelayState) (extensionId : String)
    (requestId : Nat) : RelayState :=
  match mget state.extensions extensionId with
  | none => state
  | some ext =>
    if mhas ext.pendingRequests requestId = false then state
    else
      { state with
        extensions := (mset state.extensions extensionId
          { ext with pendingRequests := mdel ext.pendingRequests requestId }) }

/-- `addTarget`: add a target to an extension's `connectedTargets`,
preserving existing `frameIds` when the target already existed (or taking
the explicitly passed `existingFrameIds`). No-op if the extension doesn't
exist. -/
def addTarget (state : RelayState) (extensionId sessionId targetId : String)
    (targetInfo : TargetInfo) (existingFrameIds : Option (List String)) : RelayState :=
  match mget state.extensions extensionId with
  | none => state
  | some ext =>
    let existingTarget := mget ext.connectedTargets sessionId
    { state with
      extensions := (mset state.extensions extensionId
        { ext with
          connectedTargets := (mset ext.connectedTargets sessionId
            { sessionId := sessionId, targetId := targetId, targetInfo := targetInfo,
              frameIds := existingFrameIds.getD
                ((existingTarget.map (·.frameIds)).getD []) }) }) }

/-- `removeTarget`: remove a target by `sessionId`; no-op if the extension
or the target doesn't exist. -/
def removeTarget (state : RelayState) (extensionId sessionId : String) : RelayState :=
  match mget state.extensions extensionId with
  | none => state
  | some ext =>
    if mhas ext.connectedTargets sessionId = false then state
    else
      { state with
        extensions := (mset state.extensions extensionId
          { ext with connectedTargets := mdel ext.connectedTargets sessionId }) }

/-- `removeTargetByCrash`: remove the first target whose `targetId` matches
(not by `sessionId`); no-op when none matches. -/
def removeTargetByCrash (state : RelayState) (extensionId targetId : String) : RelayState :=
  match mget state.extensions extensionId with
  | none => state
  | some ext =>
    match ext.connectedTargets.find? (fun q => q.2.targetId = targetId) with
    | none => state
    | some found =>
      { state with
        extensions := (mset state.extensions extensionId
          { ext with connectedTargets := mdel ext.connectedTargets found.1 }) }

/-- `updateTargetInfo`: update `targetInfo` on the first target matched by
`targetId`; no-op when none matches. -/
def updateTargetInfo (state : RelayState) (extensionId : String)
    (targetInfo : TargetInfo) : RelayState :=
  match mget state.extensions extensionId with
  | none => state
  | some ext =>
    match ext.connectedTargets.find? (fun q => q.2.targetId = targetInfo.targetId) with
    | none => state
    | some found =>
      { state with
        extensions := (mset state.extensions extensionId
          { ext with connectedTargets := (mset ext.connectedTargets found.1
              { found.2 with targetInfo := targetInfo }) }) }

/-- `addFrameId`: add a `frameId` to a target's `frameIds` set; no-op when
the extension or target is missing or the frame id is already present. -/
def addFrameId (state : RelayState) (extensionId sessionId frameId : String) : RelayState :=
  match mget state.extensions extensionId with
  | none => state
  | some ext =>
    match mget ext.connectedTargets sessionId with
    | none => state
    | some target =>
      if frameId ∈ target.frameIds then state
      else
        { state with
          extensions := (mset state.extensions extensionId
            { ext with connectedTargets := (mset ext.connectedTargets sessionId
                { target with frameIds := target.frameIds ++ [frameId] }) }) }

/-- `removeFrameId`: remove a `frameId` from the first target that owns it
(scans all targets of the extension); no-op when no target owns it. -/
def removeFrameId (state : RelayState) (extensionId frameId : String) : RelayState :=
  match mget state.extensions extensionId with
  | none => state
  | some ext =>
    match ext.connectedTargets.find? (fun q => frameId ∈ q.2.frameIds) with
    | none => state
    | some found =>
      { state with
        extensions := (mset state.extensions extensionId
          { ext with connectedTargets := (mset ext.connectedTargets found.1
              { found.2 with frameIds := found.2.frameIds.erase frameId }) }) }

/-- `updateTargetUrl`: update `url` (and optionally `title`) on a target;
no-op when the extension or target is missing. -/
def updateTargetUrl (state : RelayState) (extensionId sessionId : String)
    (url : String) (title : Option String) : RelayState :=
  match mget state.extensions extensionId with
  | none => state
  | some ext =>
    match mget ext.connectedTargets sessionId with
    | none => state
    | some target =>
      { state with
        extensions := (mset state.extensions extensionId
          { ext with connectedTargets := (mset ext.connectedTargets sessionId
              { target with targetInfo := ({ target.targetInfo with
                  url := url,
                  title := title.getD target.targetInfo.title }) }) }) }

/-- Modelled from the spec: `incrementExtensionMessageId` is listed in §4.A
as a pure transition (and exercised by the repository's store tests) but its
body is not under `src/`.  Per the spec it atomically allocates the next
monotonic `messageId`; like every transition it is a no-op when the
extension does not exist. -/
def incrementExtensionMessageId (state : RelayState) (extensionId : String) : RelayState :=
  match mget state.extensions extensionId with
  | none => state
  | some ext =>
    { state with
      extensions := (mset state.extensions extensionId
        { ext with messageId := ext.messageId + 1 }) }

/-- Modelled from the spec: `clearExtensionPendingRequests` is listed in
§4.A as a pure transition but its body is not under `src/`.  It empties the
extension's `pendingRequests`; a no-op when the extension does not exist. -/
def clearExtensionPendingRequests (state : RelayState) (extensionId : String) : RelayState :=
  match mget state.extensions extensionId with
  | none => state
  | some ext =>
    { state with
      extensions := (mset state.extensions extensionId
        { ext with pendingRequests := [] }) }

/-- Modelled from the spec: `removeClientsForExtension` is listed in §4.A as
a pure transition but its body is not under `src/`.  It removes every
playwright client bound to the extension and, per the store tests, returns
the prior state when no client is bound. -/
def removeClientsForExtension (state : RelayState) (extensionId : String) : RelayState :=
  let bound := state.playwrightClients.filter
    (fun kv => kv.2.extensionId = some extensionId)
  if bound.length = 0 then state
  else
    { state with
      playwrightClients := (state.playwrightClients.filter
        (fun kv => ¬ (kv.2.extensionId = some extensionId))) }

/-! ## Derivation helpers (`relay-state.ts`) -/

/-- `findExtensionByStableKey`: linear scan keeping the LAST (newest) match;
map iteration order is insertion order. -/
def findExtensionByStableKey (state : RelayState) (stableKey : String) :
    Option ExtensionEntry :=
  (state.extensions.map (·.2)).foldl
    (fun acc ext => if ext.stableKey = stableKey then some ext else acc) none

/-- `findExtensionIdByCdpSession`: the extension that owns a CDP tab
session id. -/
def findExtensionIdByCdpSession (state : RelayState) (cdpSessionId : String) :
    Option String :=
  (state.extensions.find? (fun kv => mhas kv.2.connectedTargets cdpSessionId)).map (·.1)

/-! ## Restricted-target filter (`diff-utils.ts`, `isRestrictedTarget`) -/

/-- Modelled from the spec: the allow-list of our own extension ids
(`EXTENSION_IDS` from `utils.ts`, which is not under `src/`).  The spec
treats it as an opaque finite allow-list; every theorem below is
independent of its concrete contents, so it is instantiated with the id
exercised by the repository's security tests. -/
def EXTENSION_IDS : List String := ["jfeammnjpkecdekppnclgkkffahnhfhe"]

def chromeExtensionScheme : String := "chrome-extension://"

/-- `url.replace('chrome-extension://', '').split('/')[0]` for a url that
starts with the scheme: drop the scheme, then take up to the first `/`. -/
def extensionIdOfUrl (url : String) : String :=
  String.mk ((url.data.drop chromeExtensionScheme.data.length).takeWhile (fun c => c ≠ '/'))

/-- `isRestrictedTarget`: should a target be filtered out (not exposed to
Playwright)?  String prefix tests (`String.prototype.startsWith`) are
modelled on the character lists. -/
def isRestrictedTarget (targetInfo : TargetInfo) : Bool :=
  if targetInfo.type ≠ "page" ∧ targetInfo.type ≠ "iframe" then true
  else if targetInfo.url = "" then false
  else if chromeExtensionScheme.data.isPrefixOf targetInfo.url.data then
    ! EXTENSION_IDS.contains (extensionIdOfUrl targetInfo.url)
  else
    ["chrome://", "devtools://", "edge://"].any
      (fun p => p.data.isPrefixOf targetInfo.url.data)

/-! ## Extension resolution (`diff-utils.ts`, `getExtensionConnection`) -/

/-- `getDefaultExtensionId`: first key of the extensions map, `|| null`. -/
def getDefaultExtensionId (state : RelayState) : Option String :=
  match state.extensions.head? with
  | some kv => if kv.1 = "" then none else some kv.1
  | none => none

/-- The stableKey branch of `getExtensionConnection`: find any entry with
this stableKey (newest wins), then scan all same-key candidates newest
first for one with a live `ws`. -/
def stableKeyLiveLookup (state : RelayState) (key : String) : Option ExtensionEntry :=
  match findExtensionByStableKey state key with
  | none => none
  | some byKey =>
    (((state.extensions.map (·.2)).filter
        (fun ext => ext.stableKey = byKey.stableKey)).reverse).find? (fun ext => ext.ws)

/-- `getExtensionConnection(extensionId?, {allowFallback})`: resolve an
extension by id, stableKey, or fallback.  A `none` or empty-string id is
falsy in the JS guard `if (extensionId)`. -/
def getExtensionConnection (state : RelayState) (extensionId : Option String)
    (allowFallback : Bool) : Option ExtensionEntry :=
  match truthy extensionId with
  | some eid =>
    (match mget state.extensions eid with
     | some direct => if direct.ws then some direct else stableKeyLiveLookup state eid
     | none => stableKeyLiveLookup state eid)
  | none =>
    if allowFallback = false then none
    else
      let singleResult : Option ExtensionEntry :=
        if state.extensions.length = 1 then
          match getDefaultExtensionId state with
          | some fallbackId =>
            (match mget state.extensions fallbackId with
             | some ext => if ext.ws then some ext else none
             | none => none)
          | none => none
        else none
      match singleResult with
      | some ext => some ext
      | none =>
        if state.extensions.length > 1 then
          match (state.extensions.map (·.2)).filter
              (fun ext => ext.connectedTargets.length > 0) with
          | [active] => if active.ws then some active else none
          | _ => none
        else none

/-! ## Event translator (`diff-utils.ts`, extension `onMessage`) -/

/-- `getPageTargetForFrameId`: first target of the extension that is a page
and whose `frameIds` contains the frame id. -/
def getPageTargetForFrameId (extensionState : ExtensionEntry) (frameId : String) :
    Option ConnectedTarget :=
  (extensionState.connectedTargets.map (·.2)).find?
    (fun target => target.targetInfo.type = "page" ∧ frameId ∈ target.frameIds)

/-- The `params` of an extension-forwarded `Target.attachedToTarget` CDP
event. -/
structure AttachedToTargetEvent where
  sessionId : String
  targetInfo : TargetInfo
  waitingForDebugger : Bool
deriving Repr, DecidableEq

/-- A CDP event written to a driver WebSocket: outer session id (absent on
browser-session events) plus the `Target.attachedToTarget` payload
fields. -/
structure DriverEvent where
  sessionId : Option String
  method : String
  paramsSessionId : String
  targetInfo : TargetInfo
  waitingForDebugger : Bool
deriving Repr, DecidableEq

/-- A `forwardCDPCommand` request sent by the Core to the extension. -/
structure ExtCommand where
  sessionId : String
  method : String
deriving Repr, DecidableEq

/-- The iframe parent lookup performed before the restricted filter:
`targetInfo.type === 'iframe' && targetInfo.parentFrameId && currentExtState
 ? getPageTargetForFrameId(...)?.sessionId : undefined`. -/
def iframeOwnerSessionId (state : RelayState) (connectionId : String)
    (ev : AttachedToTargetEvent) : Option String :=
  match mget state.extensions connectionId with
  | none => none
  | some currentExtState =>
    if ev.targetInfo.type = "iframe" then
      match truthy ev.targetInfo.parentFrameId with
      | some parentFrameId =>
        (getPageTargetForFrameId currentExtState parentFrameId).map (·.sessionId)
      | none => none
    else none

/-- The `Target.attachedToTarget` arm of the extension `onMessage` handler:
returns the next state, the events emitted to drivers, and the commands
sent back to the extension.  `outerSessionId` is the (optional) session id
of the forwarded CDP event envelope. -/
def handleAttachedToTarget (state : RelayState) (connectionId : String)
    (outerSessionId : Option String) (ev : AttachedToTargetEvent) :
    RelayState × List DriverEvent × List ExtCommand :=
  let owner := iframeOwnerSessionId state connectionId ev
  if isRestrictedTarget ev.targetInfo then
    (state, [],
      if ev.waitingForDebugger ∧ (truthy (some ev.sessionId)).isSome then
        [{ sessionId := ev.sessionId, method := "Runtime.runIfWaitingForDebugger" }]
      else [])
  else
    let alreadyConnected :=
      match mget state.extensions connectionId with
      | some ext => mhas ext.connectedTargets ev.sessionId
      | none => false
    let state1 := addTarget state connectionId ev.sessionId ev.targetInfo.targetId
      ev.targetInfo none
    let emits : List DriverEvent :=
      if alreadyConnected then []
      else
        [{ sessionId := owner <|> outerSessionId
           method := "Target.attachedToTarget"
           paramsSessionId := ev.sessionId
           targetInfo := ev.targetInfo
           waitingForDebugger := ev.waitingForDebugger }]
    (state1, emits, [])

/-- An extension-forwarded CDP event relevant to relay state (the others
leave the state unchanged and are forwarded verbatim). -/
inductive ExtEvent where
  | attachedToTarget (outerSessionId : Option String) (ev : AttachedToTargetEvent)
  | detachedFromTarget (sessionId : String)
  | targetCrashed (targetId : String)
  | targetInfoChanged (targetInfo : TargetInfo)
  | frameAttached (sessionId : Option String) (frameId : String)
  | frameDetached (sessionId : Option String) (frameId : String)
  | frameNavigated (sessionId : Option String) (frameId : String)
      (parentId : Option String) (url : String) (name : String)
  | navigatedWithinDocument (sessionId : Option String) (url : String)
deriving Repr, DecidableEq

/-- The state part of the extension `onMessage` event dispatch. -/
def applyExtEvent (connectionId : String) (state : RelayState) : ExtEvent → RelayState
  | .attachedToTarget outerSessionId ev =>
    (handleAttachedToTarget state connectionId outerSessionId ev).1
  | .detachedFromTarget sessionId => removeTarget state connectionId sessionId
  | .targetCrashed targetId => removeTargetByCrash state connectionId targetId
  | .targetInfoChanged targetInfo => updateTargetInfo state connectionId targetInfo
  | .frameAttached sessionId frameId =>
    (match truthy sessionId with
     | some sid => addFrameId state connectionId sid frameId
     | none => state)
  | .frameDetached _ frameId => removeFrameId state connectionId frameId
  | .frameNavigated sessionId frameId parentId url name =>
    (match truthy sessionId with
     | some sid =>
       let state1 := addFrameId state connectionId sid frameId
       if (truthy parentId).isNone then
         updateTargetUrl state1 connectionId sid url (truthy (some name))
       else state1
     | none => state)
  | .navigatedWithinDocument sessionId url =>
    (match truthy sessionId with
     | some sid => updateTargetUrl state connectionId sid url none
     | none => state)

/-! ## CDP emulator branches (`diff-utils.ts`, `routeCdpCommand`) -/

/-- The `Target.getTargets` branch: all non-restricted connected targets of
the resolved extension, marked `attached:true`. -/
def targetGetTargets (connectedTargets : List (String × ConnectedTarget)) :
    List TargetInfo :=
  ((connectedTargets.map (·.2)).filter
      (fun t => ! isRestrictedTarget t.targetInfo)).map
    (fun t => { t.targetInfo with attached := true })

/-- The `Target.getTargetInfo` branch: resolve by request `targetId`, else
by the command's `sessionId`, else the first target; the result payload is
`\x7b targetInfo \x7d` whose field may be `undefined`.  `Except` separates a
returned result from a thrown error (other branches of `routeCdpCommand`
throw). -/
def targetGetTargetInfo (connectedTargets : List (String × ConnectedTarget))
    (targetId : Option String) (sessionId : Option String) :
    Except String (Option TargetInfo) :=
  let byTargetId : Option ConnectedTarget :=
    match truthy targetId with
    | some tid => (connectedTargets.map (·.2)).find? (fun t => t.targetId = tid)
    | none => none
  let bySessionId : Option ConnectedTarget :=
    match truthy sessionId with
    | some sid => mget connectedTargets sid
    | none => none
  match byTargetId with
  | some target => .ok (some target.targetInfo)
  | none =>
    match bySessionId with
    | some target => .ok (some target.targetInfo)
    | none => .ok ((connectedTargets.head?).map (fun kv => kv.2.targetInfo))

/-- The replayed `Target.attachedToTarget` events emitted to the requesting
driver after a session-less `Target.setAutoAttach`: one per non-restricted
connected target, with `attached:true` and `waitingForDebugger:false`, and
no outer session id. -/
def autoAttachReplay (connectedTargets : List (String × ConnectedTarget)) :
    List DriverEvent :=
  ((connectedTargets.map (·.2)).filter
      (fun t => ! isRestrictedTarget t.targetInfo)).map
    (fun t =>
      { sessionId := none
        method := "Target.attachedToTarget"
        paramsSessionId := t.sessionId
        targetInfo := { t.targetInfo with attached := true }
        waitingForDebugger := false })

/-! ## HTTP discovery endpoints (`diff-utils.ts`, `/json*` handlers) -/

/-- One element of a `/json`, `/json/`, `/json/list`, `/json/list/`
response. -/
structure JsonTargetEntry where
  id : String
  type : String
  title : String
  description : String
  url : String
  webSocketDebuggerUrl : String
  devtoolsFrontendUrl : String
deriving Repr, DecidableEq

/-- `getCdpWsUrl`. -/
def getCdpWsUrl (hostHeader : String) : String :=
  "ws://" ++ hostHeader ++ "/cdp"

/-- The shared body of the four discovery handlers `/json`, `/json/`,
`/json/list` and `/json/list/` (their code is identical): the default
extension's `connectedTargets` mapped to discovery entries.
`wsUrl.replace('ws://', '')` removes the leading scheme, i.e. drops its
five characters. -/
def jsonListResponse (state : RelayState) (hostHeader : String) :
    List JsonTargetEntry :=
  let wsUrl := getCdpWsUrl hostHeader
  let defaultTargets :=
    match getExtensionConnection state none true with
    | some conn => conn.connectedTargets
    | none => []
  defaultTargets.map (fun kv =>
    { id := kv.2.targetId
      type := kv.2.targetInfo.type
      title := kv.2.targetInfo.title
      description := kv.2.targetInfo.title
      url := kv.2.targetInfo.url
      webSocketDebuggerUrl := wsUrl
      devtoolsFrontendUrl := "/devtools/inspector.html?ws=" ++ String.mk (wsUrl.data.drop 5) })

/-! ## Driver acceptance (`diff-utils.ts`, `/cdp` upgrade and `onOpen`) -/

/-- Outcome of the `/cdp` WebSocket `onOpen` handler. -/
inductive CdpOpenOutcome where
  | accept (extensionId : String)
  | close (code : Nat) (reason : String)
deriving Repr, DecidableEq

/-- Extension resolution at `/cdp` upgrade time: an explicit (truthy)
`extensionId` query parameter resolves directly, otherwise the fallback
rule is used. -/
def resolveCdpExtension (state : RelayState) (requestedExtensionId : Option String) :
    Option ExtensionEntry :=
  match truthy requestedExtensionId with
  | some _ => getExtensionConnection state requestedExtensionId false
  | none => getExtensionConnection state none true

/-- The `/cdp` `onOpen` gate sequence: reject a duplicate `clientId` with
4004, then reject an unresolved extension with 4003, else accept. -/
def cdpOnOpen (state : RelayState) (clientId : String)
    (requestedExtensionId : Option String) (clientExtensionId : Option String) :
    CdpOpenOutcome :=
  if mhas state.playwrightClients clientId then
    .close 4004 "Duplicate Playwright clientId"
  else
    match clientExtensionId with
    | none =>
      .close 4003
        (match truthy requestedExtensionId with
         | some rid => "Unknown extensionId: " ++ rid
         | none => "Multiple extensions connected. Specify extensionId.")
    | some extId => .accept extId

/-- The whole `/cdp` upgrade decision for a connection: resolve the
extension, then run the `onOpen` gates. -/
def cdpUpgrade (state : RelayState) (clientId : String)
    (requestedExtensionId : Option String) : CdpOpenOutcome :=
  cdpOnOpen state clientId requestedExtensionId
    ((resolveCdpExtension state requestedExtensionId).map (·.id))

/-! ## Extension request timeout (`diff-utils.ts`, `sendToExtension`) -/

/-- The default `sendToExtension` timeout in milliseconds. -/
def defaultExtensionTimeout : Nat := 30000

/-- The `setTimeout` expiry callback inside `sendToExtension`: remove the
pending entry for the request id, and reject with the timeout message. -/
def extensionRequestTimeoutStep (state : RelayState) (extensionId : String)
    (requestId : Nat) (timeout : Nat) (method : String) : RelayState × String :=
  (removeExtensionPendingRequest state extensionId requestId,
   "Extension request timeout after " ++ toString timeout ++ "ms: " ++ method)

/-! ## Concrete fixtures used by witnesses and counterexamples -/

def infoNone : ExtensionInfo :=
  { browser := none, email := none, id := none, version := none }

/-- A page target with the given ids and url. -/
def pageTarget (sessionId targetId url : String) : ConnectedTarget :=
  { sessionId := sessionId, targetId := targetId
    targetInfo := { targetId := targetId, type := "page", title := "tab", url := url
                    attached := false, parentFrameId := none }
    frameIds := [] }

/-- A live extension entry `e1` holding one page target `s1 / T1` at
`chrome://settings` (a restricted URL reachable in `connectedTargets` via a
later navigation of an attached tab). -/
def restrictedEntry : ExtensionEntry :=
  { id := "e1", info := infoNone, stableKey := "profile:p1"
    connectedTargets := [("s1", pageTarget "s1" "T1" "chrome://settings")]
    ws := true, pendingRequests := [(5, ())], messageId := 5
    pingInterval := none }

/-- A relay state holding only `restrictedEntry` and no drivers. -/
def restrictedFixture : RelayState :=
  { extensions := [("e1", restrictedEntry)]
    playwrightClients := [] }

/-- No extensions; one live driver client with id `a`. -/
def dupClientFixture : RelayState :=
  { extensions := []
    playwrightClients := [("a", { id := "a", extensionId := none, ws := true })] }

/-- A `Target.attachedToTarget` payload for a fresh page target. -/
def attachEvent (sessionId targetId url : String) : AttachedToTargetEvent :=
  { sessionId := sessionId
    targetInfo := { targetId := targetId, type := "page", title := "", url := url
                    attached := false, parentFrameId := none }
    waitingForDebugger := false }

/-- Event sequence hitting `addFrameId` with the same frame id on two
different sessions of the same extension. -/
def clashingFrameEvents : List ExtEvent :=
  [ .attachedToTarget none (attachEvent "s1" "T1" "https://a")
  , .attachedToTarget none (attachEvent "s2" "T2" "https://b")
  , .frameAttached (some "s1") "F"
  , .frameAttached (some "s2") "F" ]

/-- The state reached from the empty state by connecting extension `e1` and
applying `clashingFrameEvents`. -/
def clashedState : RelayState :=
  clashingFrameEvents.foldl (applyExtEvent "e1")
    (addExtension { extensions := [], playwrightClients := [] } "e1" infoNone "profile:p1" true)

/-! ## Frame-id disjointness invariant (spec §3 invariant 5 / §8 item 3) -/

/-- Two targets have disjoint `frameIds`. -/
def FramesDisjoint (a b : ConnectedTarget) : Prop :=
  ∀ f ∈ a.frameIds, f ∉ b.frameIds

/-- Any two distinct (by session id) targets of one map have disjoint
`frameIds`. -/
def TargetsDisjoint (l : List (String × ConnectedTarget)) : Prop :=
  ∀ p ∈ l, ∀ q ∈ l, p.1 ≠ q.1 → FramesDisjoint p.2 q.2

/-- The frame-disjointness invariant over the whole relay state. -/
def StateFramesDisjoint (s : RelayState) : Prop :=
  ∀ e ∈ s.extensions, TargetsDisjoint e.2.connectedTargets

instance (a b : ConnectedTarget) : Decidable (FramesDisjoint a b) :=
  List.decidableBAll _ _

instance (l : List (String × ConnectedTarget)) : Decidable (TargetsDisjoint l) :=
  List.decidableBAll _ _

instance (s : RelayState) : Decidable (StateFramesDisjoint s) :=
  List.decidableBAll _ _

/-- Well-formedness of one extension-forwarded event against a state: the
frame-adding events (`Page.frameAttached`, `Page.frameNavigated`) do not
report a frame id already owned by a different session of the same
extension.  All other events are unconstrained. -/
def EventFrameOk (state : RelayState) (connectionId : String) : ExtEvent → Prop
  | .frameAttached sessionId frameId =>
    ∀ sid, truthy sessionId = some sid →
      ∀ ext, mget state.extensions connectionId = some ext →
        ∀ q ∈ ext.connectedTargets, q.1 ≠ sid → frameId ∉ q.2.frameIds
  | .frameNavigated sessionId frameId _ _ _ =>
    ∀ sid, truthy sessionId = some sid →
      ∀ ext, mget state.extensions connectionId = some ext →
        ∀ q ∈ ext.connectedTargets, q.1 ≠ sid → frameId ∉ q.2.frameIds
  | _ => True

/-- The `e1` entry of `restrictedFixture` after its pending request 5 was
removed. -/
def restrictedClearedEntry : ExtensionEntry :=
  { id := "e1", info := infoNone, stableKey := "profile:p1"
    connectedTargets := [("s1", pageTarget "s1" "T1" "chrome://settings")]
    ws := true, pendingRequests := [], messageId := 5, pingInterval := none }

/-- The numeric close code of a `/cdp` upgrade outcome (none on accept). -/
def closeCode : CdpOpenOutcome → Option Nat
  | .accept _ => none
  | .close code _ => some code

/-- An ordinary (non-restricted) https page target keyed by `s2`. -/
def httpsTargets : List (String × ConnectedTarget) :=
  [("s2", pageTarget "s2" "T2" "https://ok")]

/-- The driver event produced by translating a fresh non-restricted
`Target.attachedToTarget` for session `s9` at `restrictedFixture`. -/
def emittedFixtureEvent : DriverEvent :=
  { sessionId := none, method := "Target.attachedToTarget", paramsSessionId := "s9"
    targetInfo := (attachEvent "s9" "T9" "https://new").targetInfo
    waitingForDebugger := false }

/-- The restricted-target rule in the spec's words: a target is restricted
exactly when its `type` is neither `"page"` nor `"iframe"`, or its URL
begins with `chrome://`, `devtools://`, `edge://`, or
`chrome-extension://` with an extension id not in the allow-list. -/
def RestrictedBySpec (ti : TargetInfo) : Prop :=
  (ti.type ≠ "page" ∧ ti.type ≠ "iframe")
  ∨ "chrome://".data.isPrefixOf ti.url.data = true
  ∨ "devtools://".data.isPrefixOf ti.url.data = true
  ∨ "edge://".data.isPrefixOf ti.url.data = true
  ∨ (chromeExtensionScheme.data.isPrefixOf ti.url.data = true
      ∧ extensionIdOfUrl ti.url ∉ EXTENSION_IDS)

/-- The spec's restricted-suppression scenario: `Target.attachedToTarget`
for a `chrome://newtab/` page with `waitingForDebugger:true` on session
`X`. -/
def restrictedAttachEvent : AttachedToTargetEvent :=
  { sessionId := "X"
    targetInfo := { targetId := "TX", type := "page", title := "", url := "chrome://newtab/"
                    attached := false, parentFrameId := none }
    waitingForDebugger := true }

/-- The page target of the iframe re-parenting scenario (spec scenario 2):
session `pw-tab-1`, owning frames `F0` and `F1`. -/
def iframePageTarget : ConnectedTarget :=
  { sessionId := "pw-tab-1", targetId := "T1"
    targetInfo := { targetId := "T1", type := "page", title := "", url := "https://a"
                    attached := false, parentFrameId := none }
    frameIds := ["F0", "F1"] }

/-- Extension entry holding `iframePageTarget`. -/
def iframeFixtureEntry : ExtensionEntry :=
  { id := "e1", info := infoNone, stableKey := "profile:p1"
    connectedTargets := [("pw-tab-1", iframePageTarget)]
    ws := true, pendingRequests := [], messageId := 0, pingInterval := none }

/-- Relay state for the iframe re-parenting scenario. -/
def iframeFixture : RelayState :=
  { extensions := [("e1", iframeFixtureEntry)], playwrightClients := [] }

/-- An OOPIF attach: `sessionId:"pw-tab-2"`, `parentFrameId:"F1"`. -/
def iframeAttachEvent : AttachedToTargetEvent :=
  { sessionId := "pw-tab-2"
    targetInfo := { targetId := "T2", type := "iframe", title := "", url := "https://a/frame"
                    attached := false, parentFrameId := some "F1" }
    waitingForDebugger := true }

/-- A dead (ws-less) extension entry and its live successor sharing
`stableKey` `profile:p1`, as during a reconnect overlap. -/
def oldEntry : ExtensionEntry :=
  { id := "old", info := infoNone, stableKey := "profile:p1"
    connectedTargets := [], ws := false, pendingRequests := [], messageId := 0
    pingInterval := none }

def newEntry : ExtensionEntry :=
  { id := "new", info := infoNone, stableKey := "profile:p1"
    connectedTargets := [], ws := true, pendingRequests := [], messageId := 0
    pingInterval := none }

/-- Reconnect overlap: `old` (dead) inserted before `new` (live). -/
def reconnectFixture : RelayState :=
  { extensions := [("old", oldEntry), ("new", newEntry)], playwrightClients := [] }

/-- A live extension with no targets. -/
def idleEntry : ExtensionEntry :=
  { id := "idle", info := infoNone, stableKey := "k-idle"
    connectedTargets := [], ws := true, pendingRequests := [], messageId := 0
    pingInterval := none }

/-- A live extension with one target. -/
def busyEntry : ExtensionEntry :=
  { id := "busy", info := infoNone, stableKey := "k-busy"
    connectedTargets := httpsTargets, ws := true, pendingRequests := [], messageId := 0
    pingInterval := none }

/-- Two connected extensions, exactly one of which has targets. -/
def multiFixture : RelayState :=
  { extensions := [("idle", idleEntry), ("busy", busyEntry)], playwrightClients := [] }

/-- Two connected extensions, neither of which has targets. -/
def bothIdleFixture : RelayState :=
  { extensions :=
      [("idle", idleEntry),
       ("idle2", { idleEntry with id := "idle2", stableKey := "k-idle2" })]
    playwrightClients := [] }

/-- The state reached after the two attaches of `clashingFrameEvents` (two
page targets, no frames yet). -/
def twoTargetsState : RelayState :=
  (clashingFrameEvents.take 2).foldl (applyExtEvent "e1")
    (addExtension { extensions := [], playwrightClients := [] } "e1" infoNone
      "profile:p1" true)

/-- The `Target.attachToTarget` branch of `routeCdpCommand`
(a truthy `targetId` is required, else throw): return the existing
attach's session id for the first connected target matching `targetId`,
else throw.  No `isRestrictedTarget` check is applied here. -/
def targetAttachToTarget (connectedTargets : List (String × ConnectedTarget))
    (targetId : Option String) : Except String String :=
  match truthy targetId with
  | none => .error "targetId is required for Target.attachToTarget"
  | some tid =>
    match (connectedTargets.map (·.2)).find? (fun t => t.targetId = tid) with
    | some target => .ok target.sessionId
    | none => .error ("Target " ++ tid ++ " not found in connected targets")

/-- The driver `onMessage` follow-up after a successful
`Target.attachToTarget`: when the response carries a (truthy) session id,
re-read the target by the request's `targetId` from the fresh state and
emit `Target.attachedToTarget` to the requesting driver with
`attached:true`, `waitingForDebugger:false` and no outer session id —
again with no `isRestrictedTarget` check. -/
def attachToTargetReplyEvents (connectedTargets : List (String × ConnectedTarget))
    (targetId attachSessionId : String) : List DriverEvent :=
  if attachSessionId = "" then []
  else
    match (connectedTargets.map (·.2)).find? (fun t => t.targetId = targetId) with
    | some target =>
      [{ sessionId := none
         method := "Target.attachedToTarget"
         paramsSessionId := attachSessionId
         targetInfo := { target.targetInfo with attached := true }
         waitingForDebugger := false }]
    | none => []

/-! ## Helper lemmas about the map model -/

theorem mget_mset_self {α β : Type} [DecidableEq α] (l : List (α × β)) (k : α) (v : β) :
    mget (mset l k v) k = some v := by
  induction l with
  | nil => simp [mset, mget]
  | cons hd t ih =>
    obtain ⟨a, b⟩ := hd
    by_cases hk : a = k
    · simp [mset, hk, mget]
    · simp [mset, hk, mget, ih]

theorem mget_mdel_self {α β : Type} [DecidableEq α] (l : List (α × β)) (k : α) :
    mget (mdel l k) k = none := by
  induction l with
  | nil => simp [mdel, mget]
  | cons hd t ih =>
    obtain ⟨a, b⟩ := hd
    by_cases hk : a = k
    · simp [mdel, hk, ih]
    · simp [mdel, hk, mget, ih]

theorem mdel_mset_cancel {α β : Type} [DecidableEq α] (l : List (α × β)) (k : α) (v : β)
    (h : mget l k = none) : mdel (mset l k v) k = l := by
  induction l with
  | nil => simp [mset, mdel]
  | cons hd t ih =>
    obtain ⟨a, b⟩ := hd
    by_cases hk : a = k
    · simp [mget, hk] at h
    · simp only [mget, if_neg hk] at h
      simp [mset, mdel, hk, ih h]

theorem mem_of_mget {α β : Type} [DecidableEq α] {l : List (α × β)} {k : α} {v : β}
    (h : mget l k = some v) : (k, v) ∈ l := by
  induction l with
  | nil => simp [mget] at h
  | cons hd t ih =>
    obtain ⟨a, b⟩ := hd
    by_cases hk : a = k
    · subst hk
      simp [mget] at h
      simp [h]
    · simp only [mget, if_neg hk] at h
      exact List.mem_cons_of_mem _ (ih h)

theorem mem_mset {α β : Type} [DecidableEq α] {l : List (α × β)} {k : α} {v : β}
    {x : α × β} (h : x ∈ mset l k v) : x = (k, v) ∨ x ∈ l := by
  induction l with
  | nil => simpa [mset] using h
  | cons hd t ih =>
    obtain ⟨a, b⟩ := hd
    by_cases hk : a = k
    · simp only [mset, if_pos hk, List.mem_cons] at h
      rcases h with h | h
      · exact Or.inl h
      · exact Or.inr (List.mem_cons_of_mem _ h)
    · simp only [mset, if_neg hk, List.mem_cons] at h
      rcases h with h | h
      · exact Or.inr (by simp [h])
      · rcases ih h with h2 | h2
        · exact Or.inl h2
        · exact Or.inr (List.mem_cons_of_mem _ h2)

theorem mem_mdel {α β : Type} [DecidableEq α] {l : List (α × β)} {k : α}
    {x : α × β} (h : x ∈ mdel l k) : x ∈ l := by
  induction l with
  | nil => exact h
  | cons hd t ih =>
    obtain ⟨a, b⟩ := hd
    by_cases hk : a = k
    · simp only [mdel, if_pos hk] at h
      exact List.mem_cons_of_mem _ (ih h)
    · simp only [mdel, if_neg hk, List.mem_cons] at h
      rcases h with h | h
      · simp [h]
      · exact List.mem_cons_of_mem _ (ih h)

theorem find?_eq_some_of_unique {α : Type} {p : α → Bool} {l : List α} {a : α}
    (hmem : a ∈ l) (hpa : p a = true) (huniq : ∀ b ∈ l, p b = true → b = a) :
    l.find? p = some a := by
  induction l with
  | nil => simp at hmem
  | cons hd t ih =>
    by_cases hp : p hd = true
    · have heq : hd = a := huniq hd (List.mem_cons_self hd t) hp
      subst heq
      simp [List.find?, hp]
    · simp only [List.find?, hp]
      rcases List.mem_cons.mp hmem with h | h
      · exact absurd (h ▸ hpa) hp
      · exact ih h (fun b hb hpb => huniq b (List.mem_cons_of_mem _ hb) hpb)

theorem foldl_lastMatch {α : Type} (p : α → Prop) [DecidablePred p] :
    ∀ (l : List α) (acc : Option α),
      l.foldl (fun acc e => if p e then some e else acc) acc
        = (l.reverse.find? (fun e => p e)).or acc
  | [], acc => by simp
  | x :: t, acc => by
    rw [List.foldl_cons, foldl_lastMatch p t, List.reverse_cons, List.find?_append]
    cases hf : t.reverse.find? (fun e => decide (p e)) with
    | some e => simp [hf]
    | none =>
      by_cases hp : p x
      · simp [hf, List.find?, hp]
      · simp [hf, List.find?, hp]

/-! ## C10 -/

/-- C10: a driver `Target.getTargetInfo` issued when the bound extension has
zero connected targets (so neither the requested `targetId` nor the
command's `sessionId` matches anything and no first target exists) receives
a success result whose `targetInfo` field is `undefined`, not an error
response. -/
theorem getTargetInfo_no_targets_is_success (targetId sessionId : Option String) :
    targetGetTargetInfo [] targetId sessionId = .ok none := by
  unfold targetGetTargetInfo
  cases htid : truthy targetId <;> cases hsid : truthy sessionId <;>
    simp [mget]

/-! ## C5 -/

/-- C5: the `sendToExtension` timeout callback rejects with exactly
"Extension request timeout after <N>ms: <method>" and, in the state it
leaves, the request id is no longer present in the extension's
`pendingRequests` map. -/
theorem extension_request_timeout_cleans_pending (s : RelayState)
    (eid : String) (rid : Nat) (n : Nat) (m : String) :
    (∀ ext, mget (extensionRequestTimeoutStep s eid rid n m).1.extensions eid = some ext →
        mhas ext.pendingRequests rid = false)
    ∧ (extensionRequestTimeoutStep s eid rid n m).2
        = "Extension request timeout after " ++ toString n ++ "ms: " ++ m := by
  constructor
  · intro ext hext
    simp only [extensionRequestTimeoutStep, removeExtensionPendingRequest] at hext
    cases hm : mget s.extensions eid with
    | none =>
      simp only [hm] at hext
      exact Option.noConfusion hext
    | some ext0 =>
      simp only [hm] at hext
      by_cases hh : mhas ext0.pendingRequests rid = false
      · rw [if_pos hh, hm] at hext
        injection hext with h
        subst h
        exact hh
      · rw [if_neg hh] at hext
        simp only [mget_mset_self] at hext
        injection hext with h
        subst h
        simp [mhas, mget_mdel_self]
  · rfl

/-- Witness for C5 at a concrete state: the pending id 5 is gone after the
timeout step and the message is the expected literal. -/
theorem extension_request_timeout_witness :
    mhas restrictedClearedEntry.pendingRequests 5 = false
    ∧ (extensionRequestTimeoutStep restrictedFixture "e1" 5 30000 "Page.navigate").2
        = "Extension request timeout after 30000ms: Page.navigate" :=
  ⟨(extension_request_timeout_cleans_pending restrictedFixture "e1" 5 30000 "Page.navigate").1
      restrictedClearedEntry (by decide),
   by
    rw [(extension_request_timeout_cleans_pending restrictedFixture "e1" 5 30000
      "Page.navigate").2]
    rfl⟩

/-! ## C8 -/

/-- C8: adding a fresh extension id and then removing the same id returns a
state equal to the starting one, provided the id was not already present
and no playwright client was bound to it. -/
theorem addExtension_removeExtension_roundtrip (s : RelayState) (id : String)
    (info : ExtensionInfo) (stableKey : String) (ws : Bool)
    (hid : mget s.extensions id = none)
    (hcl : ∀ kv ∈ s.playwrightClients, ¬ (kv.2.extensionId = some id)) :
    removeExtension (addExtension s id info stableKey ws) id = s := by
  have hfilter :
      ((s.playwrightClients.map (·.2)).filter
        (fun client => client.extensionId = some id)) = [] := by
    rw [List.filter_eq_nil_iff]
    intro c hc
    obtain ⟨kv, hkv, rfl⟩ := List.mem_map.mp hc
    simpa using hcl kv hkv
  unfold addExtension removeExtension
  simp only [mhas, mget_mset_self, Option.isSome_some, hfilter, List.length_nil,
    Bool.true_eq_false, if_false, if_true]
  rw [mdel_mset_cancel _ _ _ hid]

/-- Witness for C8 at a concrete state. -/
theorem addExtension_removeExtension_witness :
    removeExtension (addExtension restrictedFixture "e2" infoNone "profile:p2" true) "e2"
      = restrictedFixture :=
  addExtension_removeExtension_roundtrip restrictedFixture "e2" infoNone "profile:p2" true
    (by decide) (by decide)

/-! ## C9 -/

/-- C9: every store transition returns the prior state itself (and throws
nothing — all functions are total) when its precondition fails: the named
extension, client, target, frame id, or pending request does not exist in
the state.  `incrementExtensionMessageId`, `clearExtensionPendingRequests`
and `removeClientsForExtension` are the spec-modelled transitions. -/
theorem transitions_noop_on_missing_entity (s : RelayState)
    (eid cid sid tid fid fromId toId url : String) (rid : Nat)
    (w : Option Bool) (p : Option (Option Unit)) (ti : TargetInfo)
    (title : Option String) (efi : Option (List String)) :
    (mget s.extensions eid = none →
      removeExtension s eid = s
      ∧ updateExtensionIO s eid w p = s
      ∧ addExtensionPendingRequest s eid rid = s
      ∧ removeExtensionPendingRequest s eid rid = s
      ∧ addTarget s eid sid tid ti efi = s
      ∧ removeTarget s eid sid = s
      ∧ removeTargetByCrash s eid tid = s
      ∧ updateTargetInfo s eid ti = s
      ∧ addFrameId s eid sid fid = s
      ∧ removeFrameId s eid fid = s
      ∧ updateTargetUrl s eid sid url title = s
      ∧ incrementExtensionMessageId s eid = s
      ∧ clearExtensionPendingRequests s eid = s)
    ∧ (mget s.playwrightClients cid = none → removePlaywrightClient s cid = s)
    ∧ (∀ ext, mget s.extensions eid = some ext →
        mget ext.connectedTargets sid = none →
        removeTarget s eid sid = s
          ∧ addFrameId s eid sid fid = s
          ∧ updateTargetUrl s eid sid url title = s)
    ∧ (∀ ext, mget s.extensions eid = some ext →
        (∀ q ∈ ext.connectedTargets, ¬ (q.2.targetId = tid)) →
        removeTargetByCrash s eid tid = s)
    ∧ (∀ ext, mget s.extensions eid = some ext →
        (∀ q ∈ ext.connectedTargets, ¬ (q.2.targetId = ti.targetId)) →
        updateTargetInfo s eid ti = s)
    ∧ (∀ ext, mget s.extensions eid = some ext →
        (∀ q ∈ ext.connectedTargets, fid ∉ q.2.frameIds) →
        removeFrameId s eid fid = s)
    ∧ (∀ ext, mget s.extensions eid = some ext →
        mget ext.pendingRequests rid = none →
        removeExtensionPendingRequest s eid rid = s)
    ∧ ((∀ kv ∈ s.playwrightClients, ¬ (kv.2.extensionId = some fromId)) →
        rebindClientsToExtension s fromId toId = s
          ∧ removeClientsForExtension s fromId = s) := by
  refine ⟨fun h => ?_, fun h => ?_, fun ext hext htgt => ?_, fun ext hext hq => ?_,
    fun ext hext hq => ?_, fun ext hext hq => ?_, fun ext hext hr => ?_, fun h => ?_⟩
  · exact ⟨by simp [removeExtension, mhas, h],
      by simp [ updateExtensionIO, h],
      by simp [addExtensionPendingRequest, h],
      by simp [removeExtensionPendingRequest, h],
      by simp [addTarget, h],
      by simp [removeTarget, h],
      by simp [removeTargetByCrash, h],
      by simp [updateTargetInfo, h],
      by simp [addFrameId, h],
      by simp [removeFrameId, h],
      by simp [updateTargetUrl, h],
      by simp [incrementExtensionMessageId, h],
      by simp [clearExtensionPendingRequests, h]⟩
  · simp [removePlaywrightClient, mhas, h]
  · refine ⟨?_, ?_, ?_⟩
    · simp [removeTarget, hext, mhas, htgt]
    · simp [addFrameId, hext, htgt]
    · simp [updateTargetUrl, hext, htgt]
  · have hfind : ext.connectedTargets.find? (fun q => q.2.targetId = tid) = none := by
      rw [List.find?_eq_none]
      intro q hqmem
      simpa using hq q hqmem
    simp [removeTargetByCrash, hext, hfind]
  · have hfind : ext.connectedTargets.find?
        (fun q => q.2.targetId = ti.targetId) = none := by
      rw [List.find?_eq_none]
      intro q hqmem
      simpa using hq q hqmem
    simp [updateTargetInfo, hext, hfind]
  · have hfind : ext.connectedTargets.find? (fun q => fid ∈ q.2.frameIds) = none := by
      rw [List.find?_eq_none]
      intro q hqmem
      simpa using hq q hqmem
    simp [removeFrameId, hext, hfind]
  · simp [removeExtensionPendingRequest, hext, mhas, hr]
  · constructor
    · by_cases hft : fromId = toId
      · simp [rebindClientsToExtension, hft]
      · have hany : s.playwrightClients.any
            (fun kv => kv.2.extensionId = some fromId) = false := by
          rw [List.any_eq_false]
          intro kv hkv
          simpa using h kv hkv
        simp [rebindClientsToExtension, hft, hany]
    · have hfilter : s.playwrightClients.filter
          (fun kv => kv.2.extensionId = some fromId) = [] := by
        rw [List.filter_eq_nil_iff]
        intro kv hkv
        simpa using h kv hkv
      simp [removeClientsForExtension, hfilter]

/-- Witness for C9: several transitions applied against missing entities at
a concrete state return it unchanged. -/
theorem transitions_noop_witness :
    removeExtension restrictedFixture "nope" = restrictedFixture
    ∧ removePlaywrightClient restrictedFixture "noclient" = restrictedFixture
    ∧ removeTarget restrictedFixture "e1" "nosession" = restrictedFixture
    ∧ removeTargetByCrash restrictedFixture "e1" "noTid" = restrictedFixture
    ∧ removeFrameId restrictedFixture "e1" "noFrame" = restrictedFixture
    ∧ removeExtensionPendingRequest restrictedFixture "e1" 99 = restrictedFixture
    ∧ rebindClientsToExtension restrictedFixture "ghost" "e1" = restrictedFixture := by
  have h := transitions_noop_on_missing_entity restrictedFixture "nope" "noclient"
    "nosession" "noTid" "noFrame" "ghost" "e1" "u" 99 none none
    (pageTarget "x" "noTid" "u").targetInfo none none
  have h2 := transitions_noop_on_missing_entity restrictedFixture "e1" "noclient"
    "nosession" "noTid" "noFrame" "ghost" "e1" "u" 99 none none
    (pageTarget "x" "noTid" "u").targetInfo none none
  refine ⟨(h.1 (by decide)).1, (h.2.1 (by decide)),
    ((h2.2.2.1 restrictedEntry (by decide) (by decide)).1),
    (h2.2.2.2.1 restrictedEntry (by decide) (by decide)),
    (h2.2.2.2.2.2.1 restrictedEntry (by decide) (by decide)),
    (h2.2.2.2.2.2.2.1 restrictedEntry (by decide) (by decide)),
    (h2.2.2.2.2.2.2.2 (by decide)).1⟩

/-! ## Shared facts about the restricted filter -/

theorem isRestrictedTarget_set_attached (ti : TargetInfo) (b : Bool) :
    isRestrictedTarget { ti with attached := b } = isRestrictedTarget ti := rfl

/-! ## C4 -/

/-- C4 counterexample: at a concrete state with a live driver `a` and no
extensions, a `/cdp` connection with client id `a` and an unresolvable
`extensionId` (so no extension resolves AND the client id duplicates a live
driver) is closed with code 4004, not 4003 as claimed. -/
theorem cdp_gate_order_counterexample :
    resolveCdpExtension dupClientFixture (some "nope") = none
    ∧ mhas dupClientFixture.playwrightClients "a" = true
    ∧ closeCode (cdpUpgrade dupClientFixture "a" (some "nope")) = some 4004 :=
  ⟨by decide, by decide, by decide⟩

/-- C4 amended: the duplicate-clientId gate is applied before the
extension-resolution gate, so a connection for which no extension resolves
and whose clientId duplicates a live driver is closed with 4004 (duplicate
clientId), not 4003. -/
theorem cdp_duplicate_client_closes_4004 (s : RelayState) (clientId : String)
    (requestedExtensionId : Option String)
    (_hres : resolveCdpExtension s requestedExtensionId = none)
    (hdup : mhas s.playwrightClients clientId = true) :
    cdpUpgrade s clientId requestedExtensionId
      = .close 4004 "Duplicate Playwright clientId" := by
  simp [cdpUpgrade, cdpOnOpen, hdup]

/-- Witness for the amended C4 at the concrete duplicate-client state. -/
theorem cdp_duplicate_client_witness :
    cdpUpgrade dupClientFixture "a" (some "nope")
      = .close 4004 "Duplicate Playwright clientId" :=
  cdp_duplicate_client_closes_4004 dupClientFixture "a" (some "nope")
    (by decide) (by decide)

/-! ## C1 -/

/-- C1 counterexample: a restricted target (`chrome://settings`, reachable
in `connectedTargets` because URL updates are applied to attached targets
without re-filtering) held in the default extension's `connectedTargets`
DOES appear in the `/json`, `/json/`, `/json/list`, `/json/list/`
responses (those handlers map the targets without the restricted-target
filter), and IS delivered to a driver in a `Target.attachedToTarget`
event by the `Target.attachToTarget` reply path, which resolves the
target by id and re-emits its info with no restricted-target check. -/
theorem restricted_delivery_counterexample :
    isRestrictedTarget (pageTarget "s1" "T1" "chrome://settings").targetInfo = true
    ∧ mget restrictedEntry.connectedTargets "s1"
        = some (pageTarget "s1" "T1" "chrome://settings")
    ∧ (jsonListResponse restrictedFixture "127.0.0.1:19988").map (fun e => e.id) = ["T1"]
    ∧ targetAttachToTarget restrictedEntry.connectedTargets (some "T1") = .ok "s1"
    ∧ (attachToTargetReplyEvents restrictedEntry.connectedTargets "T1" "s1").map
        (fun e => isRestrictedTarget e.targetInfo) = [true] :=
  ⟨by decide, by decide, by decide, by rfl, by decide⟩

/-- C1 amended: a restricted target held in an extension's
`connectedTargets` never appears in the result of `Target.getTargets`, in
the `Target.setAutoAttach` replay, or in the event translator's re-emitted
`Target.attachedToTarget` (those three sites filter); the `/json*`
discovery endpoints, however, list the default extension's
`connectedTargets` without that filter, and the `Target.attachToTarget`
reply path returns the target's session id and emits a driver-delivered
`Target.attachedToTarget` for it without that filter, so a restricted
connected target is exposed through both. -/
theorem restricted_target_visibility
    (cts : List (String × ConnectedTarget)) (s : RelayState) (cid : String)
    (outer : Option String) (ev : AttachedToTargetEvent)
    (hostHeader tid attachSid : String) (conn : ExtensionEntry)
    (target : ConnectedTarget) :
    (∀ x ∈ targetGetTargets cts, isRestrictedTarget x = false)
    ∧ (∀ e ∈ autoAttachReplay cts, isRestrictedTarget e.targetInfo = false)
    ∧ (∀ e ∈ (handleAttachedToTarget s cid outer ev).2.1,
        isRestrictedTarget e.targetInfo = false)
    ∧ (getExtensionConnection s none true = some conn →
        (jsonListResponse s hostHeader).map (fun e => e.id)
          = conn.connectedTargets.map (fun kv => kv.2.targetId))
    ∧ (attachSid ≠ "" →
        (cts.map (·.2)).find? (fun t => t.targetId = tid) = some target →
        attachToTargetReplyEvents cts tid attachSid
          = [{ sessionId := none, method := "Target.attachedToTarget"
               paramsSessionId := attachSid
               targetInfo := { target.targetInfo with attached := true }
               waitingForDebugger := false }]) := by
  refine ⟨?_, ?_, ?_, ?_, ?_⟩
  · intro x hx
    simp only [targetGetTargets, List.mem_map] at hx
    obtain ⟨t, ht, rfl⟩ := hx
    have hp := (List.mem_filter.mp ht).2
    rw [isRestrictedTarget_set_attached]
    simpa using hp
  · intro e he
    simp only [autoAttachReplay, List.mem_map] at he
    obtain ⟨t, ht, rfl⟩ := he
    have hp := (List.mem_filter.mp ht).2
    rw [isRestrictedTarget_set_attached]
    simpa using hp
  · intro e he
    unfold handleAttachedToTarget at he
    by_cases hr : isRestrictedTarget ev.targetInfo = true
    · rw [if_pos hr] at he
      simp at he
    · rw [if_neg hr] at he
      simp only [] at he
      split at he
      · simp at he
      · simp only [List.mem_singleton] at he
        subst he
        simpa using hr
  · intro hconn
    unfold jsonListResponse
    simp only [hconn]
    rw [List.map_map]
    rfl
  · intro hsid hfind
    unfold attachToTargetReplyEvents
    rw [if_neg hsid]
    simp only [hfind]

/-- Witness for the amended C1 at concrete inputs: the https target
survives `Target.getTargets` and the replay as non-restricted, a
translated fresh attach carries a non-restricted target, while the
`/json*` body lists the restricted fixture target id unfiltered and the
`Target.attachToTarget` reply path emits the restricted target. -/
theorem restricted_target_visibility_witness :
    isRestrictedTarget { (pageTarget "s2" "T2" "https://ok").targetInfo with attached := true }
        = false
    ∧ isRestrictedTarget emittedFixtureEvent.targetInfo = false
    ∧ (jsonListResponse restrictedFixture "127.0.0.1:19988").map (fun e => e.id)
        = restrictedEntry.connectedTargets.map (fun kv => kv.2.targetId)
    ∧ attachToTargetReplyEvents restrictedEntry.connectedTargets "T1" "s1"
        = [{ sessionId := none, method := "Target.attachedToTarget"
             paramsSessionId := "s1"
             targetInfo := { (pageTarget "s1" "T1" "chrome://settings").targetInfo with
               attached := true }
             waitingForDebugger := false }] := by
  have h1 := restricted_target_visibility httpsTargets restrictedFixture "e1" none
    (attachEvent "s9" "T9" "https://new") "h" "x" "x" restrictedEntry
    (pageTarget "s2" "T2" "https://ok")
  have h2 := restricted_target_visibility restrictedEntry.connectedTargets
    restrictedFixture "e1" none (attachEvent "s9" "T9" "https://new") "127.0.0.1:19988"
    "T1" "s1" restrictedEntry (pageTarget "s1" "T1" "chrome://settings")
  refine ⟨?_, ?_, ?_, ?_⟩
  · exact h1.1 { (pageTarget "s2" "T2" "https://ok").targetInfo with attached := true }
      (by decide)
  · exact h1.2.2.1 emittedFixtureEvent (by decide)
  · exact h2.2.2.2.1 (by decide)
  · exact h2.2.2.2.2 (by decide) (by decide)

/-! ## C2 -/

theorem isPrefixOf_false_of_incomparable {u p q : List Char}
    (hp : p.isPrefixOf u = true) (h1 : ¬ (q <+: p)) (h2 : ¬ (p <+: q)) :
    q.isPrefixOf u = false := by
  rw [List.isPrefixOf_iff_prefix] at hp
  by_contra h
  rw [Bool.not_eq_false, List.isPrefixOf_iff_prefix] at h
  rcases List.prefix_or_prefix_of_prefix h hp with hc | hc
  · exact h1 hc
  · exact h2 hc

/-- C2: `isRestrictedTarget` holds exactly when the type is neither "page"
nor "iframe", or the URL begins with `chrome://`, `devtools://`, `edge://`,
or `chrome-extension://` with an id outside the allow-list; and for a
restricted `Target.attachedToTarget` the handler leaves the state
unchanged, emits nothing to any driver, and, when the event has
`waitingForDebugger:true` (and a non-empty session id, JS-truthy), sends
`Runtime.runIfWaitingForDebugger` to the extension on that event's session
id. -/
theorem restricted_rule_and_suppression (ti : TargetInfo) (s : RelayState)
    (cid : String) (outer : Option String) (ev : AttachedToTargetEvent) :
    (isRestrictedTarget ti = true ↔ RestrictedBySpec ti)
    ∧ (isRestrictedTarget ev.targetInfo = true →
        (handleAttachedToTarget s cid outer ev).1 = s
        ∧ (handleAttachedToTarget s cid outer ev).2.1 = []
        ∧ (ev.waitingForDebugger = true → ev.sessionId ≠ "" →
            (handleAttachedToTarget s cid outer ev).2.2
              = [{ sessionId := ev.sessionId, method := "Runtime.runIfWaitingForDebugger" }])) := by
  constructor
  · unfold isRestrictedTarget RestrictedBySpec
    by_cases ht : ti.type ≠ "page" ∧ ti.type ≠ "iframe"
    · simp [ht]
    · rw [if_neg ht]
      by_cases hu : ti.url = ""
      · rw [if_pos hu]
        have hdata : ti.url.data = [] := by rw [hu]
        have hc1 : ("chrome://".data.isPrefixOf ([] : List Char)) = false := by decide
        have hc2 : ("devtools://".data.isPrefixOf ([] : List Char)) = false := by decide
        have hc3 : ("edge://".data.isPrefixOf ([] : List Char)) = false := by decide
        have hc4 : (chromeExtensionScheme.data.isPrefixOf ([] : List Char)) = false := by
          decide
        simp [ht, hdata, hc1, hc2, hc3, hc4]
      · rw [if_neg hu]
        by_cases hce : chromeExtensionScheme.data.isPrefixOf ti.url.data = true
        · rw [if_pos hce]
          have h1 : "chrome://".data.isPrefixOf ti.url.data = false :=
            isPrefixOf_false_of_incomparable hce (by decide) (by decide)
          have h2 : "devtools://".data.isPrefixOf ti.url.data = false :=
            isPrefixOf_false_of_incomparable hce (by decide) (by decide)
          have h3 : "edge://".data.isPrefixOf ti.url.data = false :=
            isPrefixOf_false_of_incomparable hce (by decide) (by decide)
          simp [ht, h1, h2, h3, hce, List.contains]
        · rw [if_neg hce]
          have hcef : chromeExtensionScheme.data.isPrefixOf ti.url.data = false := by
            rwa [Bool.not_eq_true] at hce
          simp [ht, hcef]
  · intro hre
    unfold handleAttachedToTarget
    rw [if_pos hre]
    refine ⟨rfl, rfl, ?_⟩
    intro hw hs
    have hts : truthy (some ev.sessionId) = some ev.sessionId := by simp [truthy, hs]
    simp [hw, hts]

/-- Witness for C2 at the spec's own scenario: `chrome://newtab/`, page,
`waitingForDebugger:true`, session `X`. -/
theorem restricted_rule_witness :
    RestrictedBySpec restrictedAttachEvent.targetInfo
    ∧ (handleAttachedToTarget restrictedFixture "e1" (some "root") restrictedAttachEvent).1
        = restrictedFixture
    ∧ (handleAttachedToTarget restrictedFixture "e1" (some "root") restrictedAttachEvent).2.1
        = []
    ∧ (handleAttachedToTarget restrictedFixture "e1" (some "root") restrictedAttachEvent).2.2
        = [{ sessionId := "X", method := "Runtime.runIfWaitingForDebugger" }] := by
  have h := restricted_rule_and_suppression restrictedAttachEvent.targetInfo restrictedFixture
    "e1" (some "root") restrictedAttachEvent
  have h2 := h.2 (by decide)
  refine ⟨h.1.mp (by decide), h2.1, h2.2.1, ?_⟩
  rw [h2.2.2 (by decide) (by decide)]
  rfl

/-! ## C3 -/

theorem handleAttachedToTarget_state_eq (s : RelayState) (cid : String)
    (outer : Option String) (ev : AttachedToTargetEvent)
    (hr : isRestrictedTarget ev.targetInfo = false) :
    (handleAttachedToTarget s cid outer ev).1
      = addTarget s cid ev.sessionId ev.targetInfo.targetId ev.targetInfo none := by
  unfold handleAttachedToTarget
  rw [if_neg (by simp [hr])]

theorem handleAttachedToTarget_emits_eq (s : RelayState) (cid : String)
    (outer : Option String) (ev : AttachedToTargetEvent) (ext : ExtensionEntry)
    (hr : isRestrictedTarget ev.targetInfo = false)
    (hext : mget s.extensions cid = some ext) :
    (handleAttachedToTarget s cid outer ev).2.1
      = if mhas ext.connectedTargets ev.sessionId then []
        else
          [{ sessionId := iframeOwnerSessionId s cid ev <|> outer
             method := "Target.attachedToTarget"
             paramsSessionId := ev.sessionId
             targetInfo := ev.targetInfo
             waitingForDebugger := ev.waitingForDebugger }] := by
  unfold handleAttachedToTarget
  rw [if_neg (by simp [hr])]
  simp only [hext]

/-- C3: for every non-restricted extension-forwarded
`Target.attachedToTarget` (with the source extension present): the target
is added or updated keeping its prior `frameIds` (empty when new) and
taking the event's `targetInfo`; the event is re-emitted to drivers exactly
when no `ConnectedTarget` with that session id existed before; the emitted
outer session id is the owner lookup's result, falling back to the incoming
event's session id (never withholding the event); and the owner lookup
returns the session id of the page target whose `frameIds` contains the
event's `parentFrameId` when the target is an iframe and exactly one such
page target exists, and `none` when the lookup fails or the target is not
an iframe. -/
theorem attached_translation (s : RelayState) (cid : String)
    (outer : Option String) (ev : AttachedToTargetEvent) (ext : ExtensionEntry)
    (hr : isRestrictedTarget ev.targetInfo = false)
    (hext : mget s.extensions cid = some ext) :
    (∃ ext2, mget (handleAttachedToTarget s cid outer ev).1.extensions cid = some ext2
      ∧ mget ext2.connectedTargets ev.sessionId
          = some { sessionId := ev.sessionId, targetId := ev.targetInfo.targetId
                   targetInfo := ev.targetInfo
                   frameIds := ((mget ext.connectedTargets ev.sessionId).map
                     (fun t => t.frameIds)).getD [] })
    ∧ ((handleAttachedToTarget s cid outer ev).2.1 = []
        ↔ mhas ext.connectedTargets ev.sessionId = true)
    ∧ (mhas ext.connectedTargets ev.sessionId = false →
        (handleAttachedToTarget s cid outer ev).2.1
          = [{ sessionId := iframeOwnerSessionId s cid ev <|> outer
               method := "Target.attachedToTarget"
               paramsSessionId := ev.sessionId
               targetInfo := ev.targetInfo
               waitingForDebugger := ev.waitingForDebugger }])
    ∧ (∀ pf pt, ev.targetInfo.type = "iframe" →
        ev.targetInfo.parentFrameId = some pf → pf ≠ "" →
        pt ∈ ext.connectedTargets.map (fun kv => kv.2) →
        pt.targetInfo.type = "page" → pf ∈ pt.frameIds →
        (∀ q ∈ ext.connectedTargets.map (fun kv => kv.2),
          q.targetInfo.type = "page" → pf ∈ q.frameIds → q = pt) →
        iframeOwnerSessionId s cid ev = some pt.sessionId)
    ∧ (∀ pf, ev.targetInfo.type = "iframe" →
        ev.targetInfo.parentFrameId = some pf → pf ≠ "" →
        (∀ q ∈ ext.connectedTargets.map (fun kv => kv.2),
          ¬ (q.targetInfo.type = "page" ∧ pf ∈ q.frameIds)) →
        iframeOwnerSessionId s cid ev = none)
    ∧ (¬ (ev.targetInfo.type = "iframe") → iframeOwnerSessionId s cid ev = none) := by
  refine ⟨?_, ?_, ?_, ?_, ?_, ?_⟩
  · rw [handleAttachedToTarget_state_eq s cid outer ev hr]
    simp only [addTarget, hext]
    exact ⟨_, mget_mset_self _ _ _, by simp [mget_mset_self]⟩
  · rw [handleAttachedToTarget_emits_eq s cid outer ev ext hr hext]
    by_cases hmh : mhas ext.connectedTargets ev.sessionId = true
    · simp [hmh]
    · simp [hmh]
  · intro hmh
    rw [handleAttachedToTarget_emits_eq s cid outer ev ext hr hext, if_neg (by simp [hmh])]
  · intro pf pt hif hpf hpfne hmem hpage hfr huniq
    unfold iframeOwnerSessionId
    simp only [hext]
    rw [if_pos hif]
    have hpt : truthy (some pf) = some pf := by simp [truthy, hpfne]
    have hfind : (List.map (fun x => x.2) ext.connectedTargets).find?
        (fun target => target.targetInfo.type = "page" ∧ pf ∈ target.frameIds)
          = some pt := by
      refine find?_eq_some_of_unique hmem ?_ ?_
      · simp [hpage, hfr]
      · intro b hb hpb
        have hp2 : b.targetInfo.type = "page" ∧ pf ∈ b.frameIds := by simpa using hpb
        exact huniq b hb hp2.1 hp2.2
    unfold getPageTargetForFrameId
    simp only [hpf, hpt, hfind]
    rfl
  · intro pf hif hpf hpfne hnone
    unfold iframeOwnerSessionId
    simp only [hext]
    rw [if_pos hif]
    have hpt : truthy (some pf) = some pf := by simp [truthy, hpfne]
    have hfind : (List.map (fun x => x.2) ext.connectedTargets).find?
        (fun target => target.targetInfo.type = "page" ∧ pf ∈ target.frameIds)
          = none :=
      List.find?_eq_none.mpr (fun q hq => by simpa using hnone q hq)
    unfold getPageTargetForFrameId
    simp only [hpf, hpt, hfind]
    rfl
  · intro hif
    unfold iframeOwnerSessionId
    simp only [hext]
    rw [if_neg hif]

/-- Witness for C3 at the spec's iframe re-parenting scenario: the OOPIF
attach for `pw-tab-2` whose `parentFrameId` `F1` belongs to page
`pw-tab-1` is emitted once, re-parented onto outer session `pw-tab-1`. -/
theorem attached_translation_witness :
    iframeOwnerSessionId iframeFixture "e1" iframeAttachEvent = some "pw-tab-1"
    ∧ (handleAttachedToTarget iframeFixture "e1" (some "pw-tab-2") iframeAttachEvent).2.1
        = [{ sessionId := some "pw-tab-1", method := "Target.attachedToTarget"
             paramsSessionId := "pw-tab-2", targetInfo := iframeAttachEvent.targetInfo
             waitingForDebugger := true }] := by
  have h := attached_translation iframeFixture "e1" (some "pw-tab-2") iframeAttachEvent
    iframeFixtureEntry (by decide) (by decide)
  have howner := h.2.2.2.1 "F1" iframePageTarget (by decide) (by decide) (by decide)
    (by decide) (by decide) (by decide) (by decide)
  refine ⟨howner, ?_⟩
  rw [h.2.2.1 (by decide), howner]
  rfl

/-! ## C6 -/

theorem findExtensionByStableKey_eq (s : RelayState) (k : String) :
    findExtensionByStableKey s k
      = ((s.extensions.map (·.2)).reverse).find? (fun e => e.stableKey = k) := by
  unfold findExtensionByStableKey
  have h := foldl_lastMatch (fun e : ExtensionEntry => e.stableKey = k)
    (s.extensions.map (·.2)) none
  rw [Option.or_none] at h
  exact h

theorem stableKeyLiveLookup_eq (s : RelayState) (k : String) :
    stableKeyLiveLookup s k
      = (((s.extensions.map (·.2)).filter (fun e => e.stableKey = k)).reverse).find?
          (fun e => e.ws) := by
  unfold stableKeyLiveLookup
  rw [findExtensionByStableKey_eq]
  cases hf : ((s.extensions.map (·.2)).reverse).find? (fun e => e.stableKey = k) with
  | none =>
    have hnil : (s.extensions.map (·.2)).filter (fun e => e.stableKey = k) = [] := by
      rw [List.filter_eq_nil_iff]
      intro x hx
      have := List.find?_eq_none.mp hf x (List.mem_reverse.mpr hx)
      simpa using this
    simp [hnil]
  | some byKey =>
    have hkey : byKey.stableKey = k := by simpa using List.find?_some hf
    show (((s.extensions.map (·.2)).filter
        (fun ext => ext.stableKey = byKey.stableKey)).reverse).find? (fun ext => ext.ws)
      = (((s.extensions.map (·.2)).filter (fun e => e.stableKey = k)).reverse).find?
          (fun e => e.ws)
    rw [hkey]

theorem ws_of_stableKeyLiveLookup {s : RelayState} {k : String} {e : ExtensionEntry}
    (h : stableKeyLiveLookup s k = some e) : e.ws = true := by
  rw [stableKeyLiveLookup_eq] at h
  simpa using List.find?_some h

/-- C6: `getExtensionConnection` resolves as specified: a provided id is
looked up directly (returned only with a live `ws`), else interpreted as a
`stableKey` returning the newest live match, else `none`; without an id and
with fallback allowed, the single connected (live) extension is returned,
else among several the unique one with at least one `ConnectedTarget`, else
`none`; and it never returns an entry without a live `ws`. -/
theorem getExtensionConnection_spec (s : RelayState) (eid : String) (af : Bool) :
    (eid ≠ "" → ∀ d, mget s.extensions eid = some d → d.ws = true →
        getExtensionConnection s (some eid) af = some d)
    ∧ (eid ≠ "" → mget s.extensions eid = none →
        getExtensionConnection s (some eid) af
          = (((s.extensions.map (·.2)).filter (fun e => e.stableKey = eid)).reverse).find?
              (fun e => e.ws))
    ∧ (eid ≠ "" → ∀ d, mget s.extensions eid = some d → d.ws = false →
        getExtensionConnection s (some eid) af
          = (((s.extensions.map (·.2)).filter (fun e => e.stableKey = eid)).reverse).find?
              (fun e => e.ws))
    ∧ getExtensionConnection s none false = none
    ∧ (∀ k e, s.extensions = [(k, e)] → k ≠ "" → e.ws = true →
        getExtensionConnection s none true = some e)
    ∧ (s.extensions.length > 1 → ∀ e,
        (s.extensions.map (·.2)).filter (fun x => x.connectedTargets.length > 0) = [e] →
        e.ws = true → getExtensionConnection s none true = some e)
    ∧ (s.extensions.length > 1 →
        ((s.extensions.map (·.2)).filter
          (fun x => x.connectedTargets.length > 0)).length ≠ 1 →
        getExtensionConnection s none true = none)
    ∧ (∀ idArg afArg e, getExtensionConnection s idArg afArg = some e → e.ws = true) := by
  refine ⟨?_, ?_, ?_, ?_, ?_, ?_, ?_, ?_⟩
  · intro hne d hd hw
    have ht : truthy (some eid) = some eid := by simp [truthy, hne]
    unfold getExtensionConnection
    simp only [ht, hd]
    rw [if_pos hw]
  · intro hne hd
    have ht : truthy (some eid) = some eid := by simp [truthy, hne]
    unfold getExtensionConnection
    simp only [ht, hd]
    exact stableKeyLiveLookup_eq s eid
  · intro hne d hd hw
    have ht : truthy (some eid) = some eid := by simp [truthy, hne]
    unfold getExtensionConnection
    simp only [ht, hd]
    rw [if_neg (by simp [hw])]
    exact stableKeyLiveLookup_eq s eid
  · unfold getExtensionConnection
    simp [truthy]
  · intro k e hs hk hw
    unfold getExtensionConnection getDefaultExtensionId
    simp only [truthy, hs]
    simp [hk, mget, hw]
  · intro hlen e hfil hw
    unfold getExtensionConnection
    have hne1 : ¬ (s.extensions.length = 1) := by omega
    simp only [truthy, hne1]
    simp only [hfil]
    simp [hlen, hw, hne1]
  · intro hlen hfl
    unfold getExtensionConnection
    have hne1 : ¬ (s.extensions.length = 1) := by omega
    cases hfil : (s.extensions.map (·.2)).filter
        (fun x => x.connectedTargets.length > 0) with
    | nil => simp [truthy, hne1, hfil, hlen]
    | cons x t =>
      cases t with
      | nil => exact absurd (by rw [hfil]; rfl) hfl
      | cons y t2 => simp [truthy, hne1, hfil, hlen]
  · intro idArg afArg e he
    unfold getExtensionConnection at he
    repeat' split at he
    all_goals
      first
      | assumption
      | (injection he with h1
         subst h1
         assumption)
      | exact ws_of_stableKeyLiveLookup he
      | cases he
/-- Witness for C6 across its clauses at concrete states: direct live hit;
stableKey lookup resolving to the newest live entry during reconnect
overlap; no-fallback null; single-extension fallback; unique-active
fallback among several; null when no unique active exists; and the result
is always live. -/
theorem getExtensionConnection_witness :
    getExtensionConnection restrictedFixture (some "e1") false = some restrictedEntry
    ∧ getExtensionConnection reconnectFixture (some "profile:p1") false = some newEntry
    ∧ getExtensionConnection restrictedFixture none false = none
    ∧ getExtensionConnection restrictedFixture none true = some restrictedEntry
    ∧ getExtensionConnection multiFixture none true = some busyEntry
    ∧ getExtensionConnection bothIdleFixture none true = none
    ∧ restrictedEntry.ws = true := by
  have h1 := getExtensionConnection_spec restrictedFixture "e1" false
  have h2 := getExtensionConnection_spec reconnectFixture "profile:p1" false
  have h4 := getExtensionConnection_spec restrictedFixture "e1" true
  have h5 := getExtensionConnection_spec multiFixture "x" true
  have h6 := getExtensionConnection_spec bothIdleFixture "x" true
  refine ⟨?_, ?_, ?_, ?_, ?_, ?_, ?_⟩
  · exact h1.1 (by decide) restrictedEntry (by decide) (by decide)
  · exact (h2.2.1 (by decide) (by decide)).trans (by decide)
  · exact h1.2.2.2.1
  · exact h4.2.2.2.2.1 "e1" restrictedEntry (by decide) (by decide) (by decide)
  · exact h5.2.2.2.2.2.1 (by decide) busyEntry (by decide) (by decide)
  · exact h6.2.2.2.2.2.2.1 (by decide) (by decide)
  · exact h1.2.2.2.2.2.2.2 (some "e1") false restrictedEntry
      (h1.1 (by decide) restrictedEntry (by decide) (by decide))

/-! ## C7 -/

/-- C7 counterexample: from the empty state, connecting one extension and
applying `clashingFrameEvents` — two ordinary attaches followed by two
`Page.frameAttached` events reporting the same frame id `F` under the two
different sessions — yields a reachable state in which two distinct
`ConnectedTarget`s of the same extension both hold `F`: their `frameIds`
sets are not disjoint. -/
theorem frame_disjointness_counterexample : ¬ StateFramesDisjoint clashedState := by
  decide

theorem targetsDisjoint_mset {l : List (String × ConnectedTarget)} {k : String}
    {v : ConnectedTarget} (h : TargetsDisjoint l)
    (hv : ∀ q ∈ l, q.1 ≠ k → FramesDisjoint v q.2 ∧ FramesDisjoint q.2 v) :
    TargetsDisjoint (mset l k v) := by
  intro p hp q hq hne
  rcases mem_mset hp with rfl | hp2
  · rcases mem_mset hq with rfl | hq2
    · exact absurd rfl hne
    · exact (hv q hq2 (Ne.symm hne)).1
  · rcases mem_mset hq with rfl | hq2
    · exact (hv p hp2 hne).2
    · exact h p hp2 q hq2 hne

theorem targetsDisjoint_mdel {l : List (String × ConnectedTarget)} {k : String}
    (h : TargetsDisjoint l) : TargetsDisjoint (mdel l k) :=
  fun p hp q hq hne => h p (mem_mdel hp) q (mem_mdel hq) hne

theorem stateDisjoint_mset {s : RelayState} {eid : String} {ext2 : ExtensionEntry}
    (h : StateFramesDisjoint s) (h2 : TargetsDisjoint ext2.connectedTargets) :
    StateFramesDisjoint { s with extensions := mset s.extensions eid ext2 } := by
  intro e he
  rcases mem_mset he with rfl | he2
  · exact h2
  · exact h e he2

theorem addTarget_disjoint {s : RelayState} {eid sid tid : String} {ti : TargetInfo}
    (h : StateFramesDisjoint s) :
    StateFramesDisjoint (addTarget s eid sid tid ti none) := by
  unfold addTarget
  cases hm : mget s.extensions eid with
  | none => exact h
  | some ext =>
    have hT := h (eid, ext) (mem_of_mget hm)
    apply stateDisjoint_mset h
    apply targetsDisjoint_mset hT
    intro q hq hqne
    cases hold : mget ext.connectedTargets sid with
    | none =>
      constructor
      · intro f hf
        exact absurd hf (List.not_mem_nil f)
      · intro f hf hc
        exact absurd hc (List.not_mem_nil f)
    | some oldT =>
      have h1 := hT (sid, oldT) (mem_of_mget hold) q hq (Ne.symm hqne)
      have h2 := hT q hq (sid, oldT) (mem_of_mget hold) hqne
      constructor
      · intro f hf
        exact h1 f hf
      · intro f hf hc
        exact h2 f hf hc

theorem removeTarget_disjoint {s : RelayState} {eid sid : String}
    (h : StateFramesDisjoint s) : StateFramesDisjoint (removeTarget s eid sid) := by
  unfold removeTarget
  cases hm : mget s.extensions eid with
  | none => exact h
  | some ext =>
    show StateFramesDisjoint
      (if mhas ext.connectedTargets sid = false then s
       else { s with extensions := (mset s.extensions eid
           { ext with connectedTargets := mdel ext.connectedTargets sid }) })
    by_cases hh : mhas ext.connectedTargets sid = false
    · rw [if_pos hh]
      exact h
    · rw [if_neg hh]
      exact stateDisjoint_mset h (targetsDisjoint_mdel (h (eid, ext) (mem_of_mget hm)))

theorem removeTargetByCrash_disjoint {s : RelayState} {eid tid : String}
    (h : StateFramesDisjoint s) : StateFramesDisjoint (removeTargetByCrash s eid tid) := by
  unfold removeTargetByCrash
  cases hm : mget s.extensions eid with
  | none => exact h
  | some ext =>
    show StateFramesDisjoint
      (match ext.connectedTargets.find? (fun q => q.2.targetId = tid) with
       | none => s
       | some found =>
         { s with extensions := (mset s.extensions eid
             { ext with connectedTargets := mdel ext.connectedTargets found.1 }) })
    cases hf : ext.connectedTargets.find? (fun q => q.2.targetId = tid) with
    | none => exact h
    | some found =>
      exact stateDisjoint_mset h (targetsDisjoint_mdel (h (eid, ext) (mem_of_mget hm)))

theorem sameFrames_mset_disjoint {l : List (String × ConnectedTarget)}
    {found : String × ConnectedTarget} {v : ConnectedTarget}
    (hT : TargetsDisjoint l) (hmem : found ∈ l)
    (hfr : v.frameIds = found.2.frameIds) :
    TargetsDisjoint (mset l found.1 v) := by
  apply targetsDisjoint_mset hT
  intro q hq hqne
  have h1 := hT found hmem q hq (Ne.symm hqne)
  have h2 := hT q hq found hmem hqne
  constructor
  · intro f hf
    rw [hfr] at hf
    exact h1 f hf
  · intro f hf hc
    rw [hfr] at hc
    exact h2 f hf hc

theorem updateTargetInfo_disjoint {s : RelayState} {eid : String} {ti : TargetInfo}
    (h : StateFramesDisjoint s) : StateFramesDisjoint (updateTargetInfo s eid ti) := by
  unfold updateTargetInfo
  cases hm : mget s.extensions eid with
  | none => exact h
  | some ext =>
    show StateFramesDisjoint
      (match ext.connectedTargets.find? (fun q => q.2.targetId = ti.targetId) with
       | none => s
       | some found =>
         { s with extensions := (mset s.extensions eid
             { ext with connectedTargets := (mset ext.connectedTargets found.1
                 { found.2 with targetInfo := ti }) }) })
    cases hf : ext.connectedTargets.find? (fun q => q.2.targetId = ti.targetId) with
    | none => exact h
    | some found =>
      exact stateDisjoint_mset h
        (sameFrames_mset_disjoint (h (eid, ext) (mem_of_mget hm))
          (List.mem_of_find?_eq_some hf) rfl)

theorem updateTargetUrl_disjoint {s : RelayState} {eid sid url : String}
    {title : Option String} (h : StateFramesDisjoint s) :
    StateFramesDisjoint (updateTargetUrl s eid sid url title) := by
  unfold updateTargetUrl
  cases hm : mget s.extensions eid with
  | none => exact h
  | some ext =>
    show StateFramesDisjoint
      (match mget ext.connectedTargets sid with
       | none => s
       | some target =>
         { s with extensions := (mset s.extensions eid
             { ext with connectedTargets := (mset ext.connectedTargets sid
                 { target with targetInfo := ({ target.targetInfo with
                     url := url,
                     title := title.getD target.targetInfo.title }) }) }) })
    cases ht : mget ext.connectedTargets sid with
    | none => exact h
    | some target =>
      exact stateDisjoint_mset h
        (sameFrames_mset_disjoint (h (eid, ext) (mem_of_mget hm))
          (mem_of_mget ht) rfl)

theorem removeFrameId_disjoint {s : RelayState} {eid fid : String}
    (h : StateFramesDisjoint s) : StateFramesDisjoint (removeFrameId s eid fid) := by
  unfold removeFrameId
  cases hm : mget s.extensions eid with
  | none => exact h
  | some ext =>
    show StateFramesDisjoint
      (match ext.connectedTargets.find? (fun q => fid ∈ q.2.frameIds) with
       | none => s
       | some found =>
         { s with extensions := (mset s.extensions eid
             { ext with connectedTargets := (mset ext.connectedTargets found.1
                 { found.2 with frameIds := found.2.frameIds.erase fid }) }) })
    cases hf : ext.connectedTargets.find? (fun q => fid ∈ q.2.frameIds) with
    | none => exact h
    | some found =>
      have hT := h (eid, ext) (mem_of_mget hm)
      have hmem := List.mem_of_find?_eq_some hf
      apply stateDisjoint_mset h
      apply targetsDisjoint_mset hT
      intro q hq hqne
      have h1 := hT found hmem q hq (Ne.symm hqne)
      have h2 := hT q hq found hmem hqne
      constructor
      · intro f hfm
        exact h1 f (found.2.frameIds.mem_of_mem_erase hfm)
      · intro f hfm hc
        exact h2 f hfm (found.2.frameIds.mem_of_mem_erase hc)

theorem addFrameId_disjoint {s : RelayState} {eid sid fid : String}
    (h : StateFramesDisjoint s)
    (hfresh : ∀ ext, mget s.extensions eid = some ext →
      ∀ q ∈ ext.connectedTargets, q.1 ≠ sid → fid ∉ q.2.frameIds) :
    StateFramesDisjoint (addFrameId s eid sid fid) := by
  unfold addFrameId
  cases hm : mget s.extensions eid with
  | none => exact h
  | some ext =>
    show StateFramesDisjoint
      (match mget ext.connectedTargets sid with
       | none => s
       | some target =>
         if fid ∈ target.frameIds then s
         else
           { s with extensions := (mset s.extensions eid
               { ext with connectedTargets := (mset ext.connectedTargets sid
                   { target with frameIds := target.frameIds ++ [fid] }) }) })
    cases ht : mget ext.connectedTargets sid with
    | none => exact h
    | some target =>
      show StateFramesDisjoint
        (if fid ∈ target.frameIds then s
         else
           { s with extensions := (mset s.extensions eid
               { ext with connectedTargets := (mset ext.connectedTargets sid
                   { target with frameIds := target.frameIds ++ [fid] }) }) })
      by_cases hin : fid ∈ target.frameIds
      · rw [if_pos hin]
        exact h
      · rw [if_neg hin]
        have hT := h (eid, ext) (mem_of_mget hm)
        apply stateDisjoint_mset h
        apply targetsDisjoint_mset hT
        intro q hq hqne
        have h1 := hT (sid, target) (mem_of_mget ht) q hq (Ne.symm hqne)
        have h2 := hT q hq (sid, target) (mem_of_mget ht) hqne
        have hq2 := hfresh ext hm q hq hqne
        constructor
        · intro f hfm
          rcases List.mem_append.mp hfm with hfm2 | hfm2
          · exact h1 f hfm2
          · rw [List.mem_singleton.mp hfm2]
            exact hq2
        · intro f hfm hc
          rcases List.mem_append.mp hc with hc2 | hc2
          · exact h2 f hfm hc2
          · rw [List.mem_singleton.mp hc2] at hfm
            exact hq2 hfm

/-- C7 amended: the frame-disjointness invariant is preserved by every
extension-forwarded event provided the frame-adding events
(`Page.frameAttached` / `Page.frameNavigated`) never report a frame id
already held by a different session of the same extension; without that
well-formedness assumption the invariant is violated (see the
counterexample), because `addFrameId` does not remove the frame id from
other targets. -/
theorem frame_disjointness_preserved (s : RelayState) (cid : String) (ev : ExtEvent)
    (h : StateFramesDisjoint s) (hok : EventFrameOk s cid ev) :
    StateFramesDisjoint (applyExtEvent cid s ev) := by
  cases ev with
  | attachedToTarget outer aev =>
    show StateFramesDisjoint (handleAttachedToTarget s cid outer aev).1
    by_cases hr : isRestrictedTarget aev.targetInfo = true
    · unfold handleAttachedToTarget
      rw [if_pos hr]
      exact h
    · rw [handleAttachedToTarget_state_eq s cid outer aev (by simpa using hr)]
      exact addTarget_disjoint h
  | detachedFromTarget sid => exact removeTarget_disjoint h
  | targetCrashed tid => exact removeTargetByCrash_disjoint h
  | targetInfoChanged ti => exact updateTargetInfo_disjoint h
  | frameAttached sid fid =>
    show StateFramesDisjoint
      (match truthy sid with
       | some sv => addFrameId s cid sv fid
       | none => s)
    cases htr : truthy sid with
    | none => exact h
    | some sv => exact addFrameId_disjoint h (fun ext hm => hok sv htr ext hm)
  | frameDetached sid fid => exact removeFrameId_disjoint h
  | frameNavigated sid fid parentId url name =>
    show StateFramesDisjoint
      (match truthy sid with
       | some sv =>
         if (truthy parentId).isNone then
           updateTargetUrl (addFrameId s cid sv fid) cid sv url (truthy (some name))
         else addFrameId s cid sv fid
       | none => s)
    cases htr : truthy sid with
    | none => exact h
    | some sv =>
      have h1 : StateFramesDisjoint (addFrameId s cid sv fid) :=
        addFrameId_disjoint h (fun ext hm => hok sv htr ext hm)
      show StateFramesDisjoint
        (if (truthy parentId).isNone then
          updateTargetUrl (addFrameId s cid sv fid) cid sv url (truthy (some name))
         else addFrameId s cid sv fid)
      by_cases hp : (truthy parentId).isNone
      · rw [if_pos hp]
        exact updateTargetUrl_disjoint h1
      · rw [if_neg hp]
        exact h1
  | navigatedWithinDocument sid url =>
    show StateFramesDisjoint
      (match truthy sid with
       | some sv => updateTargetUrl s cid sv url none
       | none => s)
    cases htr : truthy sid with
    | none => exact h
    | some sv => exact updateTargetUrl_disjoint h

/-- Witness for the amended C7: an in-order `Page.frameAttached` for a
fresh frame id at the two-target state keeps the invariant. -/
theorem frame_disjointness_witness :
    StateFramesDisjoint (applyExtEvent "e1" twoTargetsState
      (.frameAttached (some "s1") "F")) :=
  frame_disjointness_preserved twoTargetsState "e1" (.frameAttached (some "s1") "F")
    (by decide)
    (by
      intro sid hsid ext hext
      injection hsid with h1
      subst h1
      injection hext with h2
      subst h2
      decide)

end Playwriter
